import Mathlib

/-! Row_maat: the record-level state of the MaaT concurrency-control protocol.

A shallow embedding of `concurrency_control/row_maat.cpp`.

* `uint64_t` values (transaction identifiers, timestamps) are natural numbers; the
  file only compares and assigns them, it never does arithmetic on them.
* `std::set<uint64_t>` is a `Finset Nat`; iteration from `begin()` to `end()` visits
  the elements in ascending order, which is `Finset.sort (· ≤ ·)`.
* Every member function takes the record state and the transaction it is handed
  a pointer to, and returns the status code together with the record and the
  transaction after the call (`Outcome`).
* The latch (`pthread_mutex_lock` / `pthread_mutex_unlock`), `get_sys_clock`,
  `INC_STATS` and `DEBUG` touch no field of the record or of the transaction and
  have no counterpart here: a call is one atomic step.
* `assert (CC_ALG == MAAT)` compares two build-time constants; the embedding is
  of the build in which the assertion holds.
-/

/-- Modelled from the spec: the enumeration `RC` is declared outside
`row_maat.cpp`. The file returns `RCOK` and `Abort`; `other` stands for every
further enumerator. -/
inductive RC where
  | RCOK
  | Abort
  | other (code : Nat)
  deriving DecidableEq

/-- Modelled from the spec: the enumeration `access_t` is declared outside
`row_maat.cpp`. The file compares an access kind with `RD` and with `WR`;
`other` stands for every further enumerator. -/
inductive access_t where
  | RD
  | WR
  | other (code : Nat)
  deriving DecidableEq

/-- Modelled from the spec: `row_t` is declared outside `row_maat.cpp`. Of a
stored record only its payload matters here, a sequence of bytes. -/
structure row_t where
  data : List Nat
  deriving DecidableEq

/-- Modelled from the spec: `row_t::copy` is defined outside `row_maat.cpp`.
Section 4.2 of the specification: the visible payload is replaced "by copying
the new payload over the old one". -/
def row_t.copy (self src : row_t) : row_t :=
  { self with data := src.data }

/-- Modelled from the spec: `TxnManager` is declared outside `row_maat.cpp`.
These are the members the file reads or writes: the identifier and the commit
timestamp behind `get_txn_id()` and `get_commit_timestamp()`, the three
observed sets and the two high-water timestamps. -/
structure TxnManager where
  txn_id : Nat
  commit_timestamp : Nat
  uncommitted_writes : Finset Nat
  uncommitted_writes_y : Finset Nat
  uncommitted_reads : Finset Nat
  greatest_write_timestamp : Nat
  greatest_read_timestamp : Nat
  deriving DecidableEq

/-- The getter `txn->get_txn_id()`. -/
def TxnManager.get_txn_id (txn : TxnManager) : Nat :=
  txn.txn_id

/-- The getter `txn->get_commit_timestamp()`. -/
def TxnManager.get_commit_timestamp (txn : TxnManager) : Nat :=
  txn.commit_timestamp

/-- The data members of `class Row_maat` other than the latch: the record the
manager belongs to, the two committed timestamps and the two uncommitted sets. -/
structure Row_maat where
  _row : row_t
  timestamp_last_read : Nat
  timestamp_last_write : Nat
  uncommitted_writes : Finset Nat
  uncommitted_reads : Finset Nat
  deriving DecidableEq

/-- What a call leaves behind: the returned status, the record and the
transaction the call was given. -/
structure Outcome where
  rc : RC
  row : Row_maat
  txn : TxnManager
  deriving DecidableEq

/-- The copy loop
`for (auto it = src->begin(); it != src->end(); it++) dst->insert(*it);`
run over the elements of `src` in ascending order. -/
def copy_set (src dst : Finset Nat) : Finset Nat :=
  (src.sort (· ≤ ·)).foldl (fun acc txn_id => insert txn_id acc) dst

/-- Member function `Row_maat::init`: both timestamps zero, both sets freshly
allocated and empty. -/
def Row_maat.init (row : row_t) : Row_maat :=
  { _row := row
    timestamp_last_read := 0
    timestamp_last_write := 0
    uncommitted_writes := ∅
    uncommitted_reads := ∅ }

/-- Member function `Row_maat::read`. -/
def Row_maat.read (self : Row_maat) (txn : TxnManager) : Outcome :=
  let rc := RC.RCOK
  -- Copy uncommitted writes
  let txn1 : TxnManager :=
    { txn with uncommitted_writes := copy_set self.uncommitted_writes txn.uncommitted_writes }
  -- Copy write timestamp
  let txn2 : TxnManager :=
    if txn1.greatest_write_timestamp < self.timestamp_last_write then
      { txn1 with greatest_write_timestamp := self.timestamp_last_write }
    else txn1
  -- Add to uncommitted reads (soft lock)
  let self1 : Row_maat :=
    { self with uncommitted_reads := insert txn2.get_txn_id self.uncommitted_reads }
  { rc := rc, row := self1, txn := txn2 }

/-- Member function `Row_maat::prewrite`. -/
def Row_maat.prewrite (self : Row_maat) (txn : TxnManager) : Outcome :=
  let rc := RC.RCOK
  -- Copy uncommitted reads
  let txn1 : TxnManager :=
    { txn with uncommitted_reads := copy_set self.uncommitted_reads txn.uncommitted_reads }
  -- Copy uncommitted writes
  let txn2 : TxnManager :=
    { txn1 with
      uncommitted_writes_y := copy_set self.uncommitted_writes txn1.uncommitted_writes_y }
  -- Copy read timestamp
  let txn3 : TxnManager :=
    if txn2.greatest_read_timestamp < self.timestamp_last_read then
      { txn2 with greatest_read_timestamp := self.timestamp_last_read }
    else txn2
  -- Copy write timestamp
  let txn4 : TxnManager :=
    if txn3.greatest_write_timestamp < self.timestamp_last_write then
      { txn3 with greatest_write_timestamp := self.timestamp_last_write }
    else txn3
  -- Add to uncommitted writes (soft lock)
  let self1 : Row_maat :=
    { self with uncommitted_writes := insert txn4.get_txn_id self.uncommitted_writes }
  { rc := rc, row := self1, txn := txn4 }

/-- Member function `Row_maat::access`: the statuses of `read` and `prewrite` are dropped. -/
def Row_maat.access (self : Row_maat) (type : access_t) (txn : TxnManager) : Outcome :=
  let s1 : Row_maat × TxnManager :=
    if type = access_t.RD then ((self.read txn).row, (self.read txn).txn) else (self, txn)
  let s2 : Row_maat × TxnManager :=
    if type = access_t.WR then ((s1.1.prewrite s1.2).row, (s1.1.prewrite s1.2).txn) else s1
  { rc := RC.RCOK, row := s2.1, txn := s2.2 }

/-- Member function `Row_maat::abort`. -/
def Row_maat.abort (self : Row_maat) (type : access_t) (txn : TxnManager) : Outcome :=
  let self1 : Row_maat :=
    if type = access_t.RD then
      { self with uncommitted_reads := self.uncommitted_reads.erase txn.get_txn_id }
    else self
  let self2 : Row_maat :=
    if type = access_t.WR then
      { self1 with uncommitted_writes := self1.uncommitted_writes.erase txn.get_txn_id }
    else self1
  { rc := RC.Abort, row := self2, txn := txn }

/-- Member function `Row_maat::write`: `_row->copy(data)`. -/
def Row_maat.write (self : Row_maat) (data : row_t) : Row_maat :=
  { self with _row := self._row.copy data }

/-- Member function `Row_maat::commit`. -/
def Row_maat.commit (self : Row_maat) (type : access_t) (txn : TxnManager) (data : row_t) :
    Outcome :=
  let self1 : Row_maat :=
    if type = access_t.RD then
      let s : Row_maat :=
        if txn.get_commit_timestamp > self.timestamp_last_read then
          { self with timestamp_last_read := txn.get_commit_timestamp }
        else self
      { s with uncommitted_reads := s.uncommitted_reads.erase txn.get_txn_id }
    else self
  let self2 : Row_maat :=
    if type = access_t.WR then
      let s : Row_maat :=
        if txn.get_commit_timestamp > self1.timestamp_last_write then
          { self1 with timestamp_last_write := txn.get_commit_timestamp }
        else self1
      let s1 : Row_maat :=
        { s with uncommitted_writes := s.uncommitted_writes.erase txn.get_txn_id }
      -- Apply write to DB
      s1.write data
    else self1
  { rc := RC.RCOK, row := self2, txn := txn }

/-- A transaction that has observed nothing yet: empty observed sets and zero
high-water timestamps, with the given identifier and commit timestamp. -/
def TxnManager.fresh (txn_id commit_timestamp : Nat) : TxnManager :=
  { txn_id := txn_id
    commit_timestamp := commit_timestamp
    uncommitted_writes := ∅
    uncommitted_writes_y := ∅
    uncommitted_reads := ∅
    greatest_write_timestamp := 0
    greatest_read_timestamp := 0 }

/-- The record of scenario A: `timestamp_last_write = 5`, both sets empty. -/
def scenarioA : Row_maat :=
  { _row := { data := [] }
    timestamp_last_read := 0
    timestamp_last_write := 5
    uncommitted_writes := ∅
    uncommitted_reads := ∅ }

/-- One call on a record, with the arguments it was made with. -/
inductive Op where
  | read (txn : TxnManager)
  | prewrite (txn : TxnManager)
  | abort (type : access_t) (txn : TxnManager)
  | commit (type : access_t) (txn : TxnManager) (data : row_t)
  deriving DecidableEq

/-- The record after one call. -/
def Row_maat.step (self : Row_maat) : Op → Row_maat
  | Op.read txn => (self.read txn).row
  | Op.prewrite txn => (self.prewrite txn).row
  | Op.abort type txn => (self.abort type txn).row
  | Op.commit type txn data => (self.commit type txn data).row

/-- The record after a finite sequence of calls, made in list order. -/
def Row_maat.run (self : Row_maat) (ops : List Op) : Row_maat :=
  ops.foldl Row_maat.step self

/-- The call ends an in-flight read of transaction `t`: `commit(RD)` or
`abort(RD)` by a transaction whose identifier is `t`. -/
def Op.endsRead (t : Nat) : Op → Bool
  | Op.abort type txn => decide (type = access_t.RD ∧ txn.get_txn_id = t)
  | Op.commit type txn _ => decide (type = access_t.RD ∧ txn.get_txn_id = t)
  | _ => false

/-- The call ends an in-flight write of transaction `t`: `commit(WR)` or
`abort(WR)` by a transaction whose identifier is `t`. -/
def Op.endsWrite (t : Nat) : Op → Bool
  | Op.abort type txn => decide (type = access_t.WR ∧ txn.get_txn_id = t)
  | Op.commit type txn _ => decide (type = access_t.WR ∧ txn.get_txn_id = t)
  | _ => false

/-- The sequence contains a `read` by transaction `t` with no later
`commit(RD)` or `abort(RD)` by `t`. -/
def outstandingRead (t : Nat) (ops : List Op) : Prop :=
  ∃ (pre post : List Op) (txn : TxnManager),
    ops = pre ++ Op.read txn :: post ∧ txn.get_txn_id = t ∧
      ∀ op ∈ post, Op.endsRead t op = false

/-- The sequence contains a `prewrite` by transaction `t` with no later
`commit(WR)` or `abort(WR)` by `t`. -/
def outstandingWrite (t : Nat) (ops : List Op) : Prop :=
  ∃ (pre post : List Op) (txn : TxnManager),
    ops = pre ++ Op.prewrite txn :: post ∧ txn.get_txn_id = t ∧
      ∀ op ∈ post, Op.endsWrite t op = false

/-! ## Closed forms of the operations -/

theorem copy_set_eq (src dst : Finset Nat) : copy_set src dst = dst ∪ src := by
  have h : ∀ (l : List Nat) (d : Finset Nat),
      l.foldl (fun acc txn_id => insert txn_id acc) d = d ∪ l.toFinset := by
    intro l
    induction l with
    | nil => intro d; simp
    | cons a l ih =>
      intro d
      simp only [List.foldl_cons, List.toFinset_cons, ih]
      ext x
      simp only [Finset.mem_union, Finset.mem_insert]
      tauto
  unfold copy_set
  rw [h, Finset.sort_toFinset]

theorem read_eq (self : Row_maat) (txn : TxnManager) :
    self.read txn =
      { rc := RC.RCOK
        row := { self with uncommitted_reads := insert txn.txn_id self.uncommitted_reads }
        txn := { txn with
          uncommitted_writes := txn.uncommitted_writes ∪ self.uncommitted_writes
          greatest_write_timestamp :=
            max txn.greatest_write_timestamp self.timestamp_last_write } } := by
  unfold Row_maat.read
  simp only [copy_set_eq, TxnManager.get_txn_id]
  split_ifs with h
  · simp [max_eq_right (le_of_lt h)]
  · simp [max_eq_left (not_lt.mp h)]

theorem prewrite_eq (self : Row_maat) (txn : TxnManager) :
    self.prewrite txn =
      { rc := RC.RCOK
        row := { self with uncommitted_writes := insert txn.txn_id self.uncommitted_writes }
        txn := { txn with
          uncommitted_reads := txn.uncommitted_reads ∪ self.uncommitted_reads
          uncommitted_writes_y := txn.uncommitted_writes_y ∪ self.uncommitted_writes
          greatest_read_timestamp :=
            max txn.greatest_read_timestamp self.timestamp_last_read
          greatest_write_timestamp :=
            max txn.greatest_write_timestamp self.timestamp_last_write } } := by
  unfold Row_maat.prewrite
  simp only [copy_set_eq, TxnManager.get_txn_id]
  split_ifs with h1 h2 h2
  · simp [max_eq_right (le_of_lt h1), max_eq_right (le_of_lt h2)]
  · simp [max_eq_right (le_of_lt h1), max_eq_left (not_lt.mp h2)]
  · simp [max_eq_left (not_lt.mp h1), max_eq_right (le_of_lt h2)]
  · simp [max_eq_left (not_lt.mp h1), max_eq_left (not_lt.mp h2)]

theorem abort_RD_eq (self : Row_maat) (txn : TxnManager) :
    self.abort access_t.RD txn =
      { rc := RC.Abort
        row := { self with uncommitted_reads := self.uncommitted_reads.erase txn.txn_id }
        txn := txn } := by
  simp [Row_maat.abort, TxnManager.get_txn_id]

theorem abort_WR_eq (self : Row_maat) (txn : TxnManager) :
    self.abort access_t.WR txn =
      { rc := RC.Abort
        row := { self with uncommitted_writes := self.uncommitted_writes.erase txn.txn_id }
        txn := txn } := by
  simp [Row_maat.abort, TxnManager.get_txn_id]

theorem abort_other_eq (self : Row_maat) (code : Nat) (txn : TxnManager) :
    self.abort (access_t.other code) txn = { rc := RC.Abort, row := self, txn := txn } := by
  simp [Row_maat.abort]

theorem commit_RD_eq (self : Row_maat) (txn : TxnManager) (data : row_t) :
    self.commit access_t.RD txn data =
      { rc := RC.RCOK
        row := { self with
          timestamp_last_read := max self.timestamp_last_read txn.commit_timestamp
          uncommitted_reads := self.uncommitted_reads.erase txn.txn_id }
        txn := txn } := by
  unfold Row_maat.commit
  simp only [TxnManager.get_txn_id, TxnManager.get_commit_timestamp]
  by_cases h : txn.commit_timestamp > self.timestamp_last_read
  · simp [h, max_eq_right (le_of_lt h)]
  · simp [h, max_eq_left (not_lt.mp h)]

theorem commit_WR_eq (self : Row_maat) (txn : TxnManager) (data : row_t) :
    self.commit access_t.WR txn data =
      { rc := RC.RCOK
        row := { self with
          _row := data
          timestamp_last_write := max self.timestamp_last_write txn.commit_timestamp
          uncommitted_writes := self.uncommitted_writes.erase txn.txn_id }
        txn := txn } := by
  unfold Row_maat.commit
  simp only [TxnManager.get_txn_id, TxnManager.get_commit_timestamp]
  by_cases h : txn.commit_timestamp > self.timestamp_last_write
  · simp [h, max_eq_right (le_of_lt h), Row_maat.write, row_t.copy]
  · simp [h, max_eq_left (not_lt.mp h), Row_maat.write, row_t.copy]

theorem commit_other_eq (self : Row_maat) (code : Nat) (txn : TxnManager) (data : row_t) :
    self.commit (access_t.other code) txn data =
      { rc := RC.RCOK, row := self, txn := txn } := by
  simp [Row_maat.commit]

/-! ## Sequences of calls on one record -/

theorem run_nil (self : Row_maat) : self.run [] = self := rfl

theorem run_cons (self : Row_maat) (op : Op) (ops : List Op) :
    self.run (op :: ops) = (self.step op).run ops := rfl

theorem run_append (self : Row_maat) (pre post : List Op) :
    self.run (pre ++ post) = (self.run pre).run post := by
  simp [Row_maat.run, List.foldl_append]

theorem step_timestamps_le (self : Row_maat) (op : Op) :
    self.timestamp_last_read ≤ (self.step op).timestamp_last_read ∧
      self.timestamp_last_write ≤ (self.step op).timestamp_last_write := by
  cases op with
  | read txn => simp [Row_maat.step, read_eq]
  | prewrite txn => simp [Row_maat.step, prewrite_eq]
  | abort type txn =>
    cases type <;> simp [Row_maat.step, abort_RD_eq, abort_WR_eq, abort_other_eq]
  | commit type txn data =>
    cases type <;> simp [Row_maat.step, commit_RD_eq, commit_WR_eq, commit_other_eq]

theorem run_timestamps_le (ops : List Op) :
    ∀ self : Row_maat,
      self.timestamp_last_read ≤ (self.run ops).timestamp_last_read ∧
        self.timestamp_last_write ≤ (self.run ops).timestamp_last_write := by
  induction ops with
  | nil => intro self; simp [run_nil]
  | cons op ops ih =>
    intro self
    rw [run_cons]
    exact ⟨le_trans (step_timestamps_le self op).1 (ih _).1,
      le_trans (step_timestamps_le self op).2 (ih _).2⟩

theorem mem_reads_step (self : Row_maat) (op : Op) (t : Nat) :
    t ∈ (self.step op).uncommitted_reads ↔
      (∃ txn, op = Op.read txn ∧ txn.get_txn_id = t) ∨
        (t ∈ self.uncommitted_reads ∧ Op.endsRead t op = false) := by
  cases op with
  | read txn =>
    simp only [Row_maat.step, read_eq, Op.endsRead, TxnManager.get_txn_id,
      Finset.mem_insert, Op.read.injEq, exists_eq_left', and_true]
    constructor
    · rintro (h | h)
      · exact Or.inl h.symm
      · exact Or.inr h
    · rintro (h | h)
      · exact Or.inl h.symm
      · exact Or.inr h
  | prewrite txn => simp [Row_maat.step, prewrite_eq, Op.endsRead]
  | abort type txn =>
    cases type <;>
      simp [Row_maat.step, abort_RD_eq, abort_WR_eq, abort_other_eq, Op.endsRead,
        TxnManager.get_txn_id, Finset.mem_erase, eq_comm, and_comm]
  | commit type txn data =>
    cases type <;>
      simp [Row_maat.step, commit_RD_eq, commit_WR_eq, commit_other_eq, Op.endsRead,
        TxnManager.get_txn_id, Finset.mem_erase, eq_comm, and_comm]

theorem mem_writes_step (self : Row_maat) (op : Op) (t : Nat) :
    t ∈ (self.step op).uncommitted_writes ↔
      (∃ txn, op = Op.prewrite txn ∧ txn.get_txn_id = t) ∨
        (t ∈ self.uncommitted_writes ∧ Op.endsWrite t op = false) := by
  cases op with
  | read txn => simp [Row_maat.step, read_eq, Op.endsWrite]
  | prewrite txn =>
    simp only [Row_maat.step, prewrite_eq, Op.endsWrite, TxnManager.get_txn_id,
      Finset.mem_insert, Op.prewrite.injEq, exists_eq_left', and_true]
    constructor
    · rintro (h | h)
      · exact Or.inl h.symm
      · exact Or.inr h
    · rintro (h | h)
      · exact Or.inl h.symm
      · exact Or.inr h
  | abort type txn =>
    cases type <;>
      simp [Row_maat.step, abort_RD_eq, abort_WR_eq, abort_other_eq, Op.endsWrite,
        TxnManager.get_txn_id, Finset.mem_erase, eq_comm, and_comm]
  | commit type txn data =>
    cases type <;>
      simp [Row_maat.step, commit_RD_eq, commit_WR_eq, commit_other_eq, Op.endsWrite,
        TxnManager.get_txn_id, Finset.mem_erase, eq_comm, and_comm]

theorem outstandingRead_cons (t : Nat) (op : Op) (ops : List Op) :
    outstandingRead t (op :: ops) ↔
      ((∃ txn, op = Op.read txn ∧ txn.get_txn_id = t) ∧
          ∀ o ∈ ops, Op.endsRead t o = false) ∨
        outstandingRead t ops := by
  constructor
  · rintro ⟨pre, post, txn, h, hid, hpost⟩
    cases pre with
    | nil =>
      simp only [List.nil_append, List.cons.injEq] at h
      obtain ⟨h1, h2⟩ := h
      subst h2
      exact Or.inl ⟨⟨txn, h1, hid⟩, hpost⟩
    | cons a pre =>
      simp only [List.cons_append, List.cons.injEq] at h
      exact Or.inr ⟨pre, post, txn, h.2, hid, hpost⟩
  · rintro (⟨⟨txn, rfl, hid⟩, h⟩ | ⟨pre, post, txn, rfl, hid, hpost⟩)
    · exact ⟨[], ops, txn, rfl, hid, h⟩
    · exact ⟨op :: pre, post, txn, rfl, hid, hpost⟩

theorem outstandingWrite_cons (t : Nat) (op : Op) (ops : List Op) :
    outstandingWrite t (op :: ops) ↔
      ((∃ txn, op = Op.prewrite txn ∧ txn.get_txn_id = t) ∧
          ∀ o ∈ ops, Op.endsWrite t o = false) ∨
        outstandingWrite t ops := by
  constructor
  · rintro ⟨pre, post, txn, h, hid, hpost⟩
    cases pre with
    | nil =>
      simp only [List.nil_append, List.cons.injEq] at h
      obtain ⟨h1, h2⟩ := h
      subst h2
      exact Or.inl ⟨⟨txn, h1, hid⟩, hpost⟩
    | cons a pre =>
      simp only [List.cons_append, List.cons.injEq] at h
      exact Or.inr ⟨pre, post, txn, h.2, hid, hpost⟩
  · rintro (⟨⟨txn, rfl, hid⟩, h⟩ | ⟨pre, post, txn, rfl, hid, hpost⟩)
    · exact ⟨[], ops, txn, rfl, hid, h⟩
    · exact ⟨op :: pre, post, txn, rfl, hid, hpost⟩

theorem outstandingRead_nil (t : Nat) : ¬ outstandingRead t [] := by
  rintro ⟨pre, post, txn, h, _, _⟩
  simp at h

theorem outstandingWrite_nil (t : Nat) : ¬ outstandingWrite t [] := by
  rintro ⟨pre, post, txn, h, _, _⟩
  simp at h

theorem mem_reads_run (t : Nat) (ops : List Op) :
    ∀ self : Row_maat,
      t ∈ (self.run ops).uncommitted_reads ↔
        (t ∈ self.uncommitted_reads ∧ ∀ o ∈ ops, Op.endsRead t o = false) ∨
          outstandingRead t ops := by
  induction ops with
  | nil =>
    intro self
    simp [run_nil, outstandingRead_nil]
  | cons op ops ih =>
    intro self
    rw [run_cons, ih, mem_reads_step, outstandingRead_cons, List.forall_mem_cons]
    generalize (∃ txn, op = Op.read txn ∧ txn.get_txn_id = t) = A
    generalize outstandingRead t ops = B
    generalize (∀ o ∈ ops, Op.endsRead t o = false) = C
    tauto

theorem mem_writes_run (t : Nat) (ops : List Op) :
    ∀ self : Row_maat,
      t ∈ (self.run ops).uncommitted_writes ↔
        (t ∈ self.uncommitted_writes ∧ ∀ o ∈ ops, Op.endsWrite t o = false) ∨
          outstandingWrite t ops := by
  induction ops with
  | nil =>
    intro self
    simp [run_nil, outstandingWrite_nil]
  | cons op ops ih =>
    intro self
    rw [run_cons, ih, mem_writes_step, outstandingWrite_cons, List.forall_mem_cons]
    generalize (∃ txn, op = Op.prewrite txn ∧ txn.get_txn_id = t) = A
    generalize outstandingWrite t ops = B
    generalize (∀ o ∈ ops, Op.endsWrite t o = false) = C
    tauto

/-! ## The contracts of the four operations -/

/-- C1: after `read(txn)` the transaction's writers-observed-during-read set is its
previous value united with the record's `uncommitted_writes`, its
`greatest_write_timestamp` is the maximum of its previous value and the record's
`timestamp_last_write`, the record's `uncommitted_reads` is its previous value with
the transaction's identifier inserted, and the record's `timestamp_last_read`,
`timestamp_last_write` and `uncommitted_writes` are unchanged. -/
theorem read_contract (self : Row_maat) (txn : TxnManager) :
    (self.read txn).txn.uncommitted_writes
        = txn.uncommitted_writes ∪ self.uncommitted_writes ∧
      (self.read txn).txn.greatest_write_timestamp
        = max txn.greatest_write_timestamp self.timestamp_last_write ∧
      (self.read txn).row.uncommitted_reads
        = insert txn.get_txn_id self.uncommitted_reads ∧
      (self.read txn).row.timestamp_last_read = self.timestamp_last_read ∧
      (self.read txn).row.timestamp_last_write = self.timestamp_last_write ∧
      (self.read txn).row.uncommitted_writes = self.uncommitted_writes := by
  rw [read_eq]
  exact ⟨rfl, rfl, rfl, rfl, rfl, rfl⟩

/-- C2: after `prewrite(txn)` the transaction's readers-observed set is its previous
value united with the record's `uncommitted_reads`, its
writers-observed-during-prewrite set (`uncommitted_writes_y`) is its previous value
united with the record's `uncommitted_writes` as it was before the call, its two
high-water timestamps are the maxima of their previous values and the record's
`timestamp_last_read` and `timestamp_last_write`, the record's `uncommitted_writes`
is its previous value with the transaction's identifier inserted, and the record's
two committed timestamps and its `uncommitted_reads` are unchanged. -/
theorem prewrite_contract (self : Row_maat) (txn : TxnManager) :
    (self.prewrite txn).txn.uncommitted_reads
        = txn.uncommitted_reads ∪ self.uncommitted_reads ∧
      (self.prewrite txn).txn.uncommitted_writes_y
        = txn.uncommitted_writes_y ∪ self.uncommitted_writes ∧
      (self.prewrite txn).txn.greatest_read_timestamp
        = max txn.greatest_read_timestamp self.timestamp_last_read ∧
      (self.prewrite txn).txn.greatest_write_timestamp
        = max txn.greatest_write_timestamp self.timestamp_last_write ∧
      (self.prewrite txn).row.uncommitted_writes
        = insert txn.get_txn_id self.uncommitted_writes ∧
      (self.prewrite txn).row.timestamp_last_read = self.timestamp_last_read ∧
      (self.prewrite txn).row.timestamp_last_write = self.timestamp_last_write ∧
      (self.prewrite txn).row.uncommitted_reads = self.uncommitted_reads := by
  rw [prewrite_eq]
  exact ⟨rfl, rfl, rfl, rfl, rfl, rfl, rfl, rfl⟩

/-- C3: after `commit(WR, txn, data)` the record's `timestamp_last_write` is the
maximum of its previous value and the transaction's commit timestamp, the
transaction's identifier is not in `uncommitted_writes` while the membership of every
other identifier is as before, the payload is `data`, and `timestamp_last_read` and
`uncommitted_reads` are unchanged. On a record with `timestamp_last_write = 5` and
`uncommitted_writes = {1}`, transaction 1 committing its write with timestamp 9 and
payload `P` leaves `timestamp_last_write = 9`, an empty `uncommitted_writes` and the
payload `P`. -/
theorem commit_WR_contract :
    (∀ (self : Row_maat) (txn : TxnManager) (data : row_t),
      (self.commit access_t.WR txn data).row.timestamp_last_write
          = max self.timestamp_last_write txn.get_commit_timestamp ∧
        (∀ t : Nat, t ∈ (self.commit access_t.WR txn data).row.uncommitted_writes
          ↔ t ≠ txn.get_txn_id ∧ t ∈ self.uncommitted_writes) ∧
        (self.commit access_t.WR txn data).row._row = data ∧
        (self.commit access_t.WR txn data).row.timestamp_last_read
          = self.timestamp_last_read ∧
        (self.commit access_t.WR txn data).row.uncommitted_reads
          = self.uncommitted_reads) ∧
    (∀ (old P : row_t) (tlr : Nat) (readers : Finset Nat) (txn : TxnManager),
      (Row_maat.commit
          { _row := old, timestamp_last_read := tlr, timestamp_last_write := 5,
            uncommitted_writes := {1}, uncommitted_reads := readers }
          access_t.WR { txn with txn_id := 1, commit_timestamp := 9 } P).row
        = { _row := P, timestamp_last_read := tlr, timestamp_last_write := 9,
            uncommitted_writes := ∅, uncommitted_reads := readers }) := by
  constructor
  · intro self txn data
    rw [commit_WR_eq]
    simp only [TxnManager.get_txn_id, TxnManager.get_commit_timestamp]
    refine ⟨trivial, ?_, trivial, trivial, trivial⟩
    intro t
    simp [Finset.mem_erase]
  · intro old P tlr readers txn
    rw [commit_WR_eq]
    simp

/-- C4: after `commit(RD, txn, data)` the record's `timestamp_last_read` is the
maximum of its previous value and the transaction's commit timestamp, the
transaction's identifier is not in `uncommitted_reads` while the membership of every
other identifier is as before, and `timestamp_last_write`, `uncommitted_writes` and
the payload are unchanged; the outcome is the same for every `data` argument. -/
theorem commit_RD_contract (self : Row_maat) (txn : TxnManager) (data : row_t) :
    (self.commit access_t.RD txn data).row.timestamp_last_read
        = max self.timestamp_last_read txn.get_commit_timestamp ∧
      (∀ t : Nat, t ∈ (self.commit access_t.RD txn data).row.uncommitted_reads
        ↔ t ≠ txn.get_txn_id ∧ t ∈ self.uncommitted_reads) ∧
      (self.commit access_t.RD txn data).row.timestamp_last_write
        = self.timestamp_last_write ∧
      (self.commit access_t.RD txn data).row.uncommitted_writes
        = self.uncommitted_writes ∧
      (self.commit access_t.RD txn data).row._row = self._row ∧
      (∀ other : row_t,
        self.commit access_t.RD txn other = self.commit access_t.RD txn data) := by
  simp only [commit_RD_eq, TxnManager.get_txn_id, TxnManager.get_commit_timestamp]
  refine ⟨trivial, ?_, trivial, trivial, trivial, fun _ => trivial⟩
  intro t
  simp [Finset.mem_erase]

/-- C5: `abort(RD, txn)` removes the transaction's identifier from
`uncommitted_reads` and `abort(WR, txn)` removes it from `uncommitted_writes`; the
membership of every other identifier in the affected set, the other uncommitted set,
both committed timestamps, the payload and the transaction are as before the call. -/
theorem abort_contract (self : Row_maat) (txn : TxnManager) :
    ((∀ t : Nat, t ∈ (self.abort access_t.RD txn).row.uncommitted_reads
        ↔ t ≠ txn.get_txn_id ∧ t ∈ self.uncommitted_reads) ∧
      (self.abort access_t.RD txn).row.uncommitted_writes = self.uncommitted_writes ∧
      (self.abort access_t.RD txn).row.timestamp_last_read = self.timestamp_last_read ∧
      (self.abort access_t.RD txn).row.timestamp_last_write = self.timestamp_last_write ∧
      (self.abort access_t.RD txn).row._row = self._row ∧
      (self.abort access_t.RD txn).txn = txn) ∧
    ((∀ t : Nat, t ∈ (self.abort access_t.WR txn).row.uncommitted_writes
        ↔ t ≠ txn.get_txn_id ∧ t ∈ self.uncommitted_writes) ∧
      (self.abort access_t.WR txn).row.uncommitted_reads = self.uncommitted_reads ∧
      (self.abort access_t.WR txn).row.timestamp_last_read = self.timestamp_last_read ∧
      (self.abort access_t.WR txn).row.timestamp_last_write = self.timestamp_last_write ∧
      (self.abort access_t.WR txn).row._row = self._row ∧
      (self.abort access_t.WR txn).txn = txn) := by
  simp only [abort_RD_eq, abort_WR_eq, TxnManager.get_txn_id]
  refine ⟨⟨?_, trivial, trivial, trivial, trivial, trivial⟩,
    ⟨?_, trivial, trivial, trivial, trivial, trivial⟩⟩
  · intro t
    simp [Finset.mem_erase]
  · intro t
    simp [Finset.mem_erase]

/-! ## Invariants over single calls and over sequences of calls -/

/-- C6: committed timestamps never move backward. After `read`, `prewrite`, `abort`
or `commit`, with any access kind, transaction, commit timestamp and payload, the
record's `timestamp_last_read` and `timestamp_last_write` are each at least what they
were before the call; and along every finite sequence of calls on a record, the two
timestamps after any prefix are at most what they are after the whole sequence. -/
theorem committed_timestamps_monotone :
    (∀ (self : Row_maat) (txn : TxnManager),
      self.timestamp_last_read ≤ (self.read txn).row.timestamp_last_read ∧
        self.timestamp_last_write ≤ (self.read txn).row.timestamp_last_write) ∧
    (∀ (self : Row_maat) (txn : TxnManager),
      self.timestamp_last_read ≤ (self.prewrite txn).row.timestamp_last_read ∧
        self.timestamp_last_write ≤ (self.prewrite txn).row.timestamp_last_write) ∧
    (∀ (self : Row_maat) (type : access_t) (txn : TxnManager),
      self.timestamp_last_read ≤ (self.abort type txn).row.timestamp_last_read ∧
        self.timestamp_last_write ≤ (self.abort type txn).row.timestamp_last_write) ∧
    (∀ (self : Row_maat) (type : access_t) (txn : TxnManager) (data : row_t),
      self.timestamp_last_read ≤ (self.commit type txn data).row.timestamp_last_read ∧
        self.timestamp_last_write
          ≤ (self.commit type txn data).row.timestamp_last_write) ∧
    (∀ (self : Row_maat) (pre post : List Op),
      (self.run pre).timestamp_last_read
          ≤ (self.run (pre ++ post)).timestamp_last_read ∧
        (self.run pre).timestamp_last_write
          ≤ (self.run (pre ++ post)).timestamp_last_write) := by
  refine ⟨?_, ?_, ?_, ?_, ?_⟩
  · intro self txn
    exact step_timestamps_le self (Op.read txn)
  · intro self txn
    exact step_timestamps_le self (Op.prewrite txn)
  · intro self type txn
    exact step_timestamps_le self (Op.abort type txn)
  · intro self type txn data
    exact step_timestamps_le self (Op.commit type txn data)
  · intro self pre post
    rw [run_append]
    exact run_timestamps_le post (self.run pre)

/-- C7: set membership exactness. After any finite sequence of `read`, `prewrite`,
`commit` and `abort` calls on a freshly initialised record, an identifier `t` is in
`uncommitted_reads` exactly when the sequence contains a `read` by `t` with no later
`commit(RD)` or `abort(RD)` by `t`, and it is in `uncommitted_writes` exactly when
the sequence contains a `prewrite` by `t` with no later `commit(WR)` or `abort(WR)`
by `t`. -/
theorem membership_exact (row : row_t) (ops : List Op) (t : Nat) :
    (t ∈ ((Row_maat.init row).run ops).uncommitted_reads ↔ outstandingRead t ops) ∧
      (t ∈ ((Row_maat.init row).run ops).uncommitted_writes ↔
        outstandingWrite t ops) := by
  constructor
  · rw [mem_reads_run]
    simp [Row_maat.init]
  · rw [mem_writes_run]
    simp [Row_maat.init]

/-- C8: an in-flight write is seen by every later read. If `T1` calls `prewrite`
and the calls that follow on the record contain no `commit(WR)` or `abort(WR)` by
`T1`'s identifier, then a `read` by `T2` after them leaves `T1`'s identifier in
`T2`'s writers-observed-during-read set and `T2`'s `greatest_write_timestamp` at
least the record's `timestamp_last_write` at the moment of the read. -/
theorem inflight_write_seen_by_read (self : Row_maat) (T1 T2 : TxnManager)
    (ops : List Op) (h : ∀ op ∈ ops, Op.endsWrite T1.get_txn_id op = false) :
    T1.get_txn_id ∈ ((((self.prewrite T1).row).run ops).read T2).txn.uncommitted_writes ∧
      (((self.prewrite T1).row).run ops).timestamp_last_write
        ≤ ((((self.prewrite T1).row).run ops).read T2).txn.greatest_write_timestamp := by
  have hmem : T1.get_txn_id ∈ (((self.prewrite T1).row).run ops).uncommitted_writes := by
    rw [mem_writes_run]
    refine Or.inl ⟨?_, h⟩
    simp [prewrite_eq, TxnManager.get_txn_id]
  rw [read_eq]
  exact ⟨Finset.mem_union_right _ hmem, le_max_right _ _⟩

/-- Scenario A for C8, with two further calls in between: on a record with
`timestamp_last_write = 5` and empty sets, transaction 1 prewrites (its
`greatest_write_timestamp` becomes 5 and `uncommitted_writes` becomes `{1}`),
transaction 3 reads and aborts a write it never staged, and then transaction 2
reads: it observes the writers `{1}` and `greatest_write_timestamp = 5`. -/
theorem inflight_write_seen_by_read_witness :
    (∀ op ∈ [Op.read (TxnManager.fresh 3 0), Op.abort access_t.WR (TxnManager.fresh 3 0)],
        Op.endsWrite (TxnManager.fresh 1 0).get_txn_id op = false) ∧
      (scenarioA.prewrite (TxnManager.fresh 1 0)).txn.greatest_write_timestamp = 5 ∧
      (scenarioA.prewrite (TxnManager.fresh 1 0)).row.uncommitted_writes = {1} ∧
      ((TxnManager.fresh 1 0).get_txn_id
          ∈ ((((scenarioA.prewrite (TxnManager.fresh 1 0)).row).run
              [Op.read (TxnManager.fresh 3 0),
                Op.abort access_t.WR (TxnManager.fresh 3 0)]).read
            (TxnManager.fresh 2 0)).txn.uncommitted_writes ∧
        (((scenarioA.prewrite (TxnManager.fresh 1 0)).row).run
              [Op.read (TxnManager.fresh 3 0),
                Op.abort access_t.WR (TxnManager.fresh 3 0)]).timestamp_last_write
          ≤ ((((scenarioA.prewrite (TxnManager.fresh 1 0)).row).run
              [Op.read (TxnManager.fresh 3 0),
                Op.abort access_t.WR (TxnManager.fresh 3 0)]).read
            (TxnManager.fresh 2 0)).txn.greatest_write_timestamp) ∧
      ((((scenarioA.prewrite (TxnManager.fresh 1 0)).row).run
            [Op.read (TxnManager.fresh 3 0),
              Op.abort access_t.WR (TxnManager.fresh 3 0)]).read
          (TxnManager.fresh 2 0)).txn.uncommitted_writes = {1} ∧
      ((((scenarioA.prewrite (TxnManager.fresh 1 0)).row).run
            [Op.read (TxnManager.fresh 3 0),
              Op.abort access_t.WR (TxnManager.fresh 3 0)]).read
          (TxnManager.fresh 2 0)).txn.greatest_write_timestamp = 5 :=
  ⟨by decide,
    by rw [prewrite_eq]; decide,
    by rw [prewrite_eq]; decide,
    inflight_write_seen_by_read scenarioA (TxnManager.fresh 1 0) (TxnManager.fresh 2 0)
      [Op.read (TxnManager.fresh 3 0), Op.abort access_t.WR (TxnManager.fresh 3 0)]
      (by decide),
    by simp only [Row_maat.run, List.foldl, Row_maat.step, prewrite_eq, read_eq, abort_WR_eq]
       decide,
    by simp only [Row_maat.run, List.foldl, Row_maat.step, prewrite_eq, read_eq, abort_WR_eq]
       decide⟩

/-- C9: isolation of observation. `read(txn)` leaves the transaction's
writers-observed-during-prewrite set (`uncommitted_writes_y`), its readers-observed
set (`uncommitted_reads`) and its `greatest_read_timestamp` unchanged, and
`prewrite(txn)` leaves its writers-observed-during-read set (`uncommitted_writes`)
unchanged: the writers seen by a read and the writers seen by a prewrite go into
two different sets. -/
theorem observation_isolated (self : Row_maat) (txn : TxnManager) :
    (self.read txn).txn.uncommitted_writes_y = txn.uncommitted_writes_y ∧
      (self.read txn).txn.uncommitted_reads = txn.uncommitted_reads ∧
      (self.read txn).txn.greatest_read_timestamp = txn.greatest_read_timestamp ∧
      (self.prewrite txn).txn.uncommitted_writes = txn.uncommitted_writes := by
  rw [read_eq, prewrite_eq]
  exact ⟨rfl, rfl, rfl, rfl⟩

/-- C10 as stated fails: on a record whose `uncommitted_reads` already holds
transaction 1, `read` by transaction 1 followed by `abort(RD)` leaves
`uncommitted_reads` empty, not `{1}`; likewise for `prewrite` followed by
`abort(WR)` on a record whose `uncommitted_writes` already holds transaction 1. -/
theorem abort_after_reentry_differs :
    (((Row_maat.mk { data := [] } 0 0 ∅ {1}).read (TxnManager.fresh 1 0)).row.abort
          access_t.RD
          ((Row_maat.mk { data := [] } 0 0 ∅ {1}).read (TxnManager.fresh 1 0)).txn).row
        ≠ Row_maat.mk { data := [] } 0 0 ∅ {1} ∧
      (((Row_maat.mk { data := [] } 0 0 {1} ∅).prewrite (TxnManager.fresh 1 0)).row.abort
          access_t.WR
          ((Row_maat.mk { data := [] } 0 0 {1} ∅).prewrite (TxnManager.fresh 1 0)).txn).row
        ≠ Row_maat.mk { data := [] } 0 0 {1} ∅ := by
  simp only [read_eq, prewrite_eq, abort_RD_eq, abort_WR_eq]
  decide

/-- C10, amended: when the transaction's identifier is not already in the record's
`uncommitted_reads`, `read(txn)` followed by `abort(RD, txn)` leaves the record (both
uncommitted sets, both committed timestamps and the payload) exactly as it was before
the `read`; when it is not already in `uncommitted_writes`, `prewrite(txn)` followed
by `abort(WR, txn)` leaves the record exactly as it was before the `prewrite`. -/
theorem abort_undoes_access (self : Row_maat) (txn : TxnManager) :
    (txn.get_txn_id ∉ self.uncommitted_reads →
      ((self.read txn).row.abort access_t.RD (self.read txn).txn).row = self) ∧
    (txn.get_txn_id ∉ self.uncommitted_writes →
      ((self.prewrite txn).row.abort access_t.WR (self.prewrite txn).txn).row = self) := by
  simp only [read_eq, prewrite_eq, abort_RD_eq, abort_WR_eq, TxnManager.get_txn_id]
  constructor
  · intro h
    simp [Finset.erase_insert h]
  · intro h
    simp [Finset.erase_insert h]

/-- Transaction 7 reads, then aborts the read, and prewrites, then aborts the
write, on a record on which transactions 1 and 2 are in flight: the record is as
before each access. -/
theorem abort_undoes_access_witness :
    (TxnManager.fresh 7 0).get_txn_id
        ∉ (Row_maat.mk { data := [4, 2] } 3 5 {1} {1, 2}).uncommitted_reads ∧
      (((Row_maat.mk { data := [4, 2] } 3 5 {1} {1, 2}).read (TxnManager.fresh 7 0)).row.abort
          access_t.RD
          ((Row_maat.mk { data := [4, 2] } 3 5 {1} {1, 2}).read (TxnManager.fresh 7 0)).txn).row
        = Row_maat.mk { data := [4, 2] } 3 5 {1} {1, 2} ∧
      (TxnManager.fresh 7 0).get_txn_id
        ∉ (Row_maat.mk { data := [4, 2] } 3 5 {1} {1, 2}).uncommitted_writes ∧
      (((Row_maat.mk { data := [4, 2] } 3 5 {1} {1, 2}).prewrite
            (TxnManager.fresh 7 0)).row.abort
          access_t.WR
          ((Row_maat.mk { data := [4, 2] } 3 5 {1} {1, 2}).prewrite
            (TxnManager.fresh 7 0)).txn).row
        = Row_maat.mk { data := [4, 2] } 3 5 {1} {1, 2} :=
  ⟨by decide,
    (abort_undoes_access (Row_maat.mk { data := [4, 2] } 3 5 {1} {1, 2})
      (TxnManager.fresh 7 0)).1 (by decide),
    by decide,
    (abort_undoes_access (Row_maat.mk { data := [4, 2] } 3 5 {1} {1, 2})
      (TxnManager.fresh 7 0)).2 (by decide)⟩

/-! ## Closed forms of `access` -/

theorem access_RD_eq (self : Row_maat) (txn : TxnManager) :
    self.access access_t.RD txn =
      { rc := RC.RCOK, row := (self.read txn).row, txn := (self.read txn).txn } := by
  simp [Row_maat.access]

theorem access_WR_eq (self : Row_maat) (txn : TxnManager) :
    self.access access_t.WR txn =
      { rc := RC.RCOK, row := (self.prewrite txn).row, txn := (self.prewrite txn).txn } := by
  simp [Row_maat.access]

theorem access_other_eq (self : Row_maat) (code : Nat) (txn : TxnManager) :
    self.access (access_t.other code) txn = { rc := RC.RCOK, row := self, txn := txn } := by
  simp [Row_maat.access]

/-! ## Algebraic properties of the calls -/

/-- C11: on a record whose `uncommitted_writes` does not contain `T1`'s identifier,
`prewrite(T1)` followed by `abort(WR, T1)` returns `uncommitted_writes` to exactly
its value before the `prewrite` and leaves `timestamp_last_write` unchanged; in
particular, if `uncommitted_writes` was empty it is empty again. -/
theorem prewrite_abort_restores_writers (self : Row_maat) (T1 : TxnManager)
    (h : T1.get_txn_id ∉ self.uncommitted_writes) :
    ((self.prewrite T1).row.abort access_t.WR (self.prewrite T1).txn).row.uncommitted_writes
        = self.uncommitted_writes ∧
      ((self.prewrite T1).row.abort access_t.WR
          (self.prewrite T1).txn).row.timestamp_last_write
        = self.timestamp_last_write ∧
      (self.uncommitted_writes = ∅ →
        ((self.prewrite T1).row.abort access_t.WR
          (self.prewrite T1).txn).row.uncommitted_writes = ∅) := by
  simp only [TxnManager.get_txn_id] at h
  have hw : ((self.prewrite T1).row.abort access_t.WR
      (self.prewrite T1).txn).row.uncommitted_writes = self.uncommitted_writes := by
    simp only [prewrite_eq, abort_WR_eq]
    exact Finset.erase_insert h
  refine ⟨hw, ?_, ?_⟩
  · simp only [prewrite_eq, abort_WR_eq]
  · intro hempty
    rw [hw, hempty]

/-- Scenario C: on a freshly initialised record transaction 1 prewrites and then
aborts the write; `uncommitted_writes` is empty again and `timestamp_last_write`
is still 0. -/
theorem prewrite_abort_restores_writers_witness :
    (TxnManager.fresh 1 0).get_txn_id
        ∉ (Row_maat.init { data := [] }).uncommitted_writes ∧
      (((Row_maat.init { data := [] }).prewrite (TxnManager.fresh 1 0)).row.abort
          access_t.WR
          ((Row_maat.init { data := [] }).prewrite
            (TxnManager.fresh 1 0)).txn).row.uncommitted_writes = ∅ ∧
      (((Row_maat.init { data := [] }).prewrite (TxnManager.fresh 1 0)).row.abort
          access_t.WR
          ((Row_maat.init { data := [] }).prewrite
            (TxnManager.fresh 1 0)).txn).row.timestamp_last_write = 0 :=
  ⟨by decide,
    (prewrite_abort_restores_writers (Row_maat.init { data := [] }) (TxnManager.fresh 1 0)
      (by decide)).2.2 rfl,
    (prewrite_abort_restores_writers (Row_maat.init { data := [] }) (TxnManager.fresh 1 0)
      (by decide)).2.1⟩

/-- C12: read commits are order-independent. `commit(RD, T1)` then `commit(RD, T2)`
leaves the record in the same state as `commit(RD, T2)` then `commit(RD, T1)`; in
both orders `timestamp_last_read` ends as the maximum of its previous value and the
two commit timestamps, and neither identifier remains in `uncommitted_reads`. When
transactions 1 and 2 have both read a fresh record and commit with timestamps 3 and
7, both identifiers are in `uncommitted_reads` before the commits and
`timestamp_last_read` is 7 after them, in either order. -/
theorem read_commits_commute :
    (∀ (self : Row_maat) (T1 T2 : TxnManager) (d1 d2 : row_t),
      ((self.commit access_t.RD T1 d1).row.commit access_t.RD T2 d2).row
          = ((self.commit access_t.RD T2 d2).row.commit access_t.RD T1 d1).row ∧
        ((self.commit access_t.RD T1 d1).row.commit access_t.RD T2 d2).row.timestamp_last_read
          = max (max self.timestamp_last_read T1.get_commit_timestamp)
              T2.get_commit_timestamp ∧
        ((self.commit access_t.RD T2 d2).row.commit access_t.RD T1 d1).row.timestamp_last_read
          = max (max self.timestamp_last_read T1.get_commit_timestamp)
              T2.get_commit_timestamp ∧
        T1.get_txn_id
          ∉ ((self.commit access_t.RD T1 d1).row.commit access_t.RD T2 d2).row.uncommitted_reads ∧
        T2.get_txn_id
          ∉ ((self.commit access_t.RD T1 d1).row.commit access_t.RD T2 d2).row.uncommitted_reads) ∧
    ((((Row_maat.init { data := [] }).read (TxnManager.fresh 1 3)).row.read
          (TxnManager.fresh 2 7)).row.uncommitted_reads = {1, 2} ∧
      (((((Row_maat.init { data := [] }).read (TxnManager.fresh 1 3)).row.read
          (TxnManager.fresh 2 7)).row.commit access_t.RD (TxnManager.fresh 1 3)
            { data := [] }).row.commit access_t.RD (TxnManager.fresh 2 7)
            { data := [] }).row.timestamp_last_read = 7 ∧
      (((((Row_maat.init { data := [] }).read (TxnManager.fresh 1 3)).row.read
          (TxnManager.fresh 2 7)).row.commit access_t.RD (TxnManager.fresh 2 7)
            { data := [] }).row.commit access_t.RD (TxnManager.fresh 1 3)
            { data := [] }).row.timestamp_last_read = 7) := by
  constructor
  · intro self T1 T2 d1 d2
    simp only [commit_RD_eq, TxnManager.get_txn_id, TxnManager.get_commit_timestamp]
    refine ⟨?_, trivial, ?_, ?_, ?_⟩
    · rw [Finset.erase_right_comm, sup_right_comm]
    · exact sup_right_comm _ _ _
    · simp [Finset.mem_erase]
    · simp [Finset.mem_erase]
  · simp only [read_eq, commit_RD_eq]
    decide

/-- C13: the record's payload is replaced only by a write commit. `read`,
`prewrite`, `access` and `abort` with any access kind, and `commit` with `RD` (or any
kind other than `WR`), leave the payload exactly as it was; after
`commit(WR, txn, data)` the payload is `data`. -/
theorem payload_replaced_only_by_write_commit (self : Row_maat) (txn : TxnManager)
    (data : row_t) :
    (self.read txn).row._row = self._row ∧
      (self.prewrite txn).row._row = self._row ∧
      (∀ type : access_t, (self.access type txn).row._row = self._row) ∧
      (∀ type : access_t, (self.abort type txn).row._row = self._row) ∧
      (self.commit access_t.RD txn data).row._row = self._row ∧
      (∀ code : Nat, (self.commit (access_t.other code) txn data).row._row = self._row) ∧
      (self.commit access_t.WR txn data).row._row = data := by
  refine ⟨?_, ?_, ?_, ?_, ?_, ?_, ?_⟩
  · rw [read_eq]
  · rw [prewrite_eq]
  · intro type
    cases type with
    | RD => rw [access_RD_eq, read_eq]
    | WR => rw [access_WR_eq, prewrite_eq]
    | other code => rw [access_other_eq]
  · intro type
    cases type with
    | RD => rw [abort_RD_eq]
    | WR => rw [abort_WR_eq]
    | other code => rw [abort_other_eq]
  · rw [commit_RD_eq]
  · intro code
    rw [commit_other_eq]
  · rw [commit_WR_eq]

/-- C14: no double accounting. The same `abort(kind, txn)` applied twice in
succession, or the same `commit(kind, txn, data)` applied twice in succession, leaves
the record in exactly the state reached after the first call: the second call finds
the identifier absent from the set and changes nothing. -/
theorem no_double_accounting (self : Row_maat) (type : access_t) (txn : TxnManager)
    (data : row_t) :
    ((self.abort type txn).row.abort type (self.abort type txn).txn).row
        = (self.abort type txn).row ∧
      ((self.commit type txn data).row.commit type (self.commit type txn data).txn data).row
        = (self.commit type txn data).row ∧
      txn.get_txn_id ∉ (self.abort access_t.RD txn).row.uncommitted_reads ∧
      txn.get_txn_id ∉ (self.abort access_t.WR txn).row.uncommitted_writes ∧
      txn.get_txn_id ∉ (self.commit access_t.RD txn data).row.uncommitted_reads ∧
      txn.get_txn_id ∉ (self.commit access_t.WR txn data).row.uncommitted_writes := by
  refine ⟨?_, ?_, ?_, ?_, ?_, ?_⟩
  · cases type with
    | RD => simp [abort_RD_eq]
    | WR => simp [abort_WR_eq]
    | other code => simp [abort_other_eq]
  · cases type with
    | RD => simp [commit_RD_eq]
    | WR => simp [commit_WR_eq]
    | other code => simp [commit_other_eq]
  · simp [abort_RD_eq, TxnManager.get_txn_id]
  · simp [abort_WR_eq, TxnManager.get_txn_id]
  · simp [commit_RD_eq, TxnManager.get_txn_id]
  · simp [commit_WR_eq, TxnManager.get_txn_id]

/-- C15: accumulation is order-independent across records. For two records `r1`
and `r2`, a transaction and two access kinds, `access(k1)` on `r1` followed by
`access(k2)` on `r2` leaves the same transaction (all three observed sets and both
high-water timestamps) and the same states of `r1` and `r2` as `access(k2)` on `r2`
followed by `access(k1)` on `r1`. -/
theorem accumulation_order_independent (r1 r2 : Row_maat) (txn : TxnManager)
    (k1 k2 : access_t) :
    (r2.access k2 (r1.access k1 txn).txn).txn
        = (r1.access k1 (r2.access k2 txn).txn).txn ∧
      (r1.access k1 txn).row = (r1.access k1 (r2.access k2 txn).txn).row ∧
      (r2.access k2 (r1.access k1 txn).txn).row = (r2.access k2 txn).row := by
  cases k1 <;> cases k2 <;>
    simp only [access_RD_eq, access_WR_eq, access_other_eq, read_eq, prewrite_eq] <;>
    refine ⟨?_, trivial, trivial⟩ <;>
    first
      | trivial
      | (congr 1 <;>
          first
            | trivial
            | exact Finset.union_right_comm _ _ _
            | exact sup_right_comm _ _ _)

/-- C16: no operation has a failure path. For every record state, access kind,
transaction and payload, `read`, `prewrite`, `access` and `commit` return `RCOK` and
`abort` returns `Abort`. -/
theorem no_failure_path (self : Row_maat) (type : access_t) (txn : TxnManager)
    (data : row_t) :
    (self.read txn).rc = RC.RCOK ∧
      (self.prewrite txn).rc = RC.RCOK ∧
      (self.access type txn).rc = RC.RCOK ∧
      (self.commit type txn data).rc = RC.RCOK ∧
      (self.abort type txn).rc = RC.Abort :=
  ⟨rfl, rfl, rfl, rfl, rfl⟩

/-! ## Re-entry and the order of write commits -/

/-- C18: re-entry into the reader set is idempotent. A second `read(txn)` right
after the first leaves the same record and the same transaction as the first alone;
the transaction's identifier is in `uncommitted_reads`, and an iteration over that
set meets it exactly once. -/
theorem read_twice_same_as_once (self : Row_maat) (txn : TxnManager) :
    ((self.read txn).row.read (self.read txn).txn).row = (self.read txn).row ∧
      ((self.read txn).row.read (self.read txn).txn).txn = (self.read txn).txn ∧
      txn.get_txn_id
        ∈ ((self.read txn).row.read (self.read txn).txn).row.uncommitted_reads ∧
      ((((self.read txn).row.read (self.read txn).txn).row.uncommitted_reads).sort
          (· ≤ ·)).count txn.get_txn_id = 1 := by
  have hrow : ((self.read txn).row.read (self.read txn).txn).row = (self.read txn).row := by
    simp [read_eq]
  have hmem : txn.get_txn_id ∈ (self.read txn).row.uncommitted_reads := by
    simp [read_eq, TxnManager.get_txn_id]
  refine ⟨hrow, ?_, ?_, ?_⟩
  · simp [read_eq, Finset.union_assoc]
  · rw [hrow]
    exact hmem
  · rw [hrow]
    exact List.count_eq_one_of_mem (Finset.sort_nodup _ _) ((Finset.mem_sort _).mpr hmem)

/-- C19: a prewrite observes the writer set as it was before the caller inserts
itself. After `prewrite(txn)` the caller's identifier is in its
writers-observed-during-prewrite set exactly when it was already in that set or
already in the record's `uncommitted_writes` before the call. A second consecutive
`prewrite(txn)` leaves the record unchanged and changes the transaction only by
inserting its own identifier into that set. -/
theorem prewrite_observes_prior_writers (self : Row_maat) (txn : TxnManager) :
    (txn.get_txn_id ∈ (self.prewrite txn).txn.uncommitted_writes_y ↔
        txn.get_txn_id ∈ txn.uncommitted_writes_y ∨
          txn.get_txn_id ∈ self.uncommitted_writes) ∧
      ((self.prewrite txn).row.prewrite (self.prewrite txn).txn).row
        = (self.prewrite txn).row ∧
      ((self.prewrite txn).row.prewrite (self.prewrite txn).txn).txn
        = { (self.prewrite txn).txn with
            uncommitted_writes_y :=
              insert txn.get_txn_id (self.prewrite txn).txn.uncommitted_writes_y } := by
  simp only [prewrite_eq, TxnManager.get_txn_id]
  refine ⟨?_, ?_, ?_⟩
  · simp [Finset.mem_union]
  · simp
  · congr 1
    · simp [Finset.union_assoc]
    · ext x
      simp only [Finset.mem_union, Finset.mem_insert]
      tauto
    · simp
    · simp

/-- C20: the payload follows call order, not timestamp order. Two write commits
applied in either order leave the same `timestamp_last_write`, the maximum of its
previous value and the two commit timestamps, and the same `uncommitted_writes`, but
the payload is that of the commit applied last. A write commit replaces the payload
whatever its timestamp, and it leaves `timestamp_last_write` unchanged exactly when
its commit timestamp is not greater than `timestamp_last_write`. -/
theorem payload_follows_call_order :
    (∀ (self : Row_maat) (T1 T2 : TxnManager) (P1 P2 : row_t),
      ((self.commit access_t.WR T1 P1).row.commit access_t.WR T2 P2).row.timestamp_last_write
          = max (max self.timestamp_last_write T1.get_commit_timestamp)
              T2.get_commit_timestamp ∧
        ((self.commit access_t.WR T2 P2).row.commit access_t.WR T1 P1).row.timestamp_last_write
          = max (max self.timestamp_last_write T1.get_commit_timestamp)
              T2.get_commit_timestamp ∧
        ((self.commit access_t.WR T1 P1).row.commit access_t.WR T2 P2).row.uncommitted_writes
          = ((self.commit access_t.WR T2 P2).row.commit access_t.WR T1 P1).row.uncommitted_writes ∧
        ((self.commit access_t.WR T1 P1).row.commit access_t.WR T2 P2).row._row = P2 ∧
        ((self.commit access_t.WR T2 P2).row.commit access_t.WR T1 P1).row._row = P1) ∧
    (∀ (self : Row_maat) (txn : TxnManager) (data : row_t),
      (self.commit access_t.WR txn data).row._row = data ∧
        ((self.commit access_t.WR txn data).row.timestamp_last_write
            = self.timestamp_last_write ↔
          txn.get_commit_timestamp ≤ self.timestamp_last_write)) ∧
    ((Row_maat.commit (Row_maat.mk { data := [1] } 0 9 {4} ∅) access_t.WR
          (TxnManager.fresh 4 3) { data := [2] }).row
        = Row_maat.mk { data := [2] } 0 9 ∅ ∅) := by
  refine ⟨?_, ?_, ?_⟩
  · intro self T1 T2 P1 P2
    simp only [commit_WR_eq, TxnManager.get_commit_timestamp]
    refine ⟨trivial, ?_, ?_, trivial, trivial⟩
    · exact sup_right_comm _ _ _
    · exact Finset.erase_right_comm
  · intro self txn data
    simp only [commit_WR_eq, TxnManager.get_commit_timestamp]
    exact ⟨trivial, max_eq_left_iff⟩
  · simp only [commit_WR_eq]
    decide
